import Mathlib

/-!
Verification development for the slurmer repository (parameter-grid
expansion and SLURM submission orchestration).

The Python sources are shallowly embedded:
* `slurmer/params.py` — parameter values, special parameter descriptors,
  `normalize_parameters`, `split_variables_and_arguments`;
* `slurmer/run.py` — `Grid` (with `__post_init__` normalization),
  `Grid.should_skip`, `JobSubmitter.get_dependency_string`,
  `JobSubmitter.format_command`, `JobSubmitter.submit_job`,
  `JobSubmitter.submit_grid`, `JobSubmitter.submit_all`.

External collaborators (filesystem checks, `str.format` templating,
`glob.iglob`, `os.path.expanduser`) are modelled as an explicit
environment record `Env`; the scheduler gateway (`subprocess.run` of the
formatted `sbatch` command) is modelled as a function from the index of
the dispatch to the process result.  Python dictionaries are modelled as
ordered association lists (Python dicts preserve insertion order; keys
are distinct in any dict produced by the real program).
-/

namespace Slurmer

/-- Python parameter value (`str | int | float | bool | None`).  A float
is carried opaquely as its Python repr string: no modelled operation
computes with floats, they are only stored and stringified. -/
inductive PVal where
  | str (v : String)
  | int (v : Int)
  | float (lit : String)
  | bool (v : Bool)
  | none
deriving DecidableEq

/-- Python `str(value)` for the modelled values. -/
def pvalStr : PVal → String
  | .str v => v
  | .int n => toString n
  | .float lit => lit
  | .bool true => "True"
  | .bool false => "False"
  | .none => "None"

/-- A concrete parameter dictionary (`ParameterDict` in params.py):
an insertion-ordered association list of name/value pairs. -/
abbrev ParamDict := List (String × PVal)

/-- External collaborators of the core, packaged as one record:
`os.path.exists`, `os.path.expanduser`, `str.format(**param_dict)` and
`glob.iglob` (pattern, optional root dir). -/
structure Env where
  pathExists : String → Bool
  expanduser : String → String
  pyFormat : String → ParamDict → String
  globIGlob : String → Option String → List String

/-- Python truthiness of an `Optional[str]`: `None` and `""` are falsy. -/
def pyTruthyStr : Option String → Bool
  | Option.none => false
  | Option.some s => !(s = "")

/-- Python truthiness of an `Optional[List[int]]`: `None` and `[]` are falsy. -/
def pyTruthyIntList : Option (List Int) → Bool
  | Option.none => false
  | Option.some l => !l.isEmpty

/-- Python `str.startswith` (here always called on single-character
literals, but modelled in general as a character-prefix test). -/
def pyStartsWith (s pre : String) : Bool :=
  pre.data.isPrefixOf s.data

/-- Python `sep.join(parts)`. -/
def pyJoin (sep : String) : List String → String
  | [] => ""
  | [x] => x
  | x :: xs => x ++ sep ++ pyJoin sep xs

/-- Python `range(start, stop, step)` as a list, for `step ≠ 0`
(`step = 0` raises `ValueError` in Python and yields `[]` here; no
modelled call site produces it). -/
def rangeZ (start stop step : Int) : List Int :=
  if 0 < step then
    (List.range ((stop - start + step - 1).toNat / step.toNat)).map
      (fun i => start + (i : Int) * step)
  else if step < 0 then
    (List.range ((start - stop + (-step) - 1).toNat / (-step).toNat)).map
      (fun i => start - (i : Int) * (-step))
  else []

/-- Python `range(*args)` for the 1/2/3-argument forms used by
`SpecialParameter.__iter__`; any other arity raises `TypeError` in
Python and is not modelled (yields `[]`). -/
def pyRange : List Int → List Int
  | [stop] => rangeZ 0 stop 1
  | [start, stop] => rangeZ start stop 1
  | [start, stop, step] => rangeZ start stop step
  | _ => []

/-- `SpecialParameter` dataclass of params.py: a glob pattern with an
optional root directory, or an integer range. -/
structure SpecialParameter where
  glob : Option String := Option.none
  root_dir : Option String := Option.none
  range : Option (List Int) := Option.none
deriving DecidableEq

/-- `SpecialParameter.__iter__`: if `glob` is truthy, the glob results
(after user-home expansion of the pattern and the optional root dir);
otherwise, if `range` is truthy, `range(*self.range)`; otherwise nothing. -/
def SpecialParameter.iter (E : Env) (sp : SpecialParameter) : List PVal :=
  if pyTruthyStr sp.glob then
    (E.globIGlob (E.expanduser (sp.glob.getD "")) (sp.root_dir.map E.expanduser)).map PVal.str
  else if pyTruthyIntList sp.range then
    (pyRange (sp.range.getD [])).map PVal.int
  else []

/-- A raw (pre-expansion) parameter-set value: a special descriptor
(written as a dict in the config), an explicit list, or a scalar —
mirroring the `isinstance` dispatch in `normalize_parameters`. -/
inductive RawValue where
  | special (sp : SpecialParameter)
  | list (vs : List PVal)
  | scalar (v : PVal)
deriving DecidableEq

/-- One parameter set: an ordered map from parameter name to raw value. -/
abbrev RawParams := List (String × RawValue)

/-- The `params` field before normalization: a bare parameter set or a
list of parameter sets (`Parameters | List[Parameters]`). -/
inductive PSpec where
  | one (ps : RawParams)
  | many (sets : List RawParams)
deriving DecidableEq

/-- Per-key value coercion of `normalize_parameters`: a dict is
materialized through `SpecialParameter`, a list is used as-is, a scalar
becomes a one-element list. -/
def coerceValue (E : Env) : RawValue → List PVal
  | .special sp => sp.iter E
  | .list vs => vs
  | .scalar v => [v]

/-- `itertools.product(*values)` on a list of lists: all combinations in
odometer order, the last list varying fastest. -/
def prodLists : List (List α) → List (List α)
  | [] => [[]]
  | xs :: rest => xs.flatMap (fun x => (prodLists rest).map (fun c => x :: c))

/-- The number of combinations `itertools.product` yields: the product
of the list lengths. -/
def prodLen (Ls : List (List α)) : Nat :=
  (Ls.map List.length).prod

/-- The body of the `for param_set in params` loop of
`normalize_parameters`: coerce every value of one parameter set, take
the Cartesian product, and zip each combination back with the keys. -/
def expandSet (E : Env) (ps : RawParams) : List ParamDict :=
  let grid_params := ps.map (fun kv => (kv.1, coerceValue E kv.2))
  let keys := grid_params.map Prod.fst
  let values := grid_params.map Prod.snd
  (prodLists values).map (fun combination => keys.zip combination)

/-- `normalize_parameters`: a bare dict becomes a one-element list of
parameter sets; each set is expanded and the results are concatenated
in order. -/
def normalizeParameters (E : Env) (params : PSpec) : List ParamDict :=
  (match params with
   | .one ps => [ps]
   | .many sets => sets).flatMap (expandSet E)

/-- The per-key coerced value lists of one parameter set, in key order
(`values` in `normalize_parameters`). -/
def coercedLists (E : Env) (ps : RawParams) : List (List PVal) :=
  ps.map (fun kv => coerceValue E kv.2)

/-- Key classification of `split_variables_and_arguments`: keys starting
with `$` or `-` are arguments, the rest are variables. -/
def isArgKey (k : String) : Bool :=
  pyStartsWith k "$" || pyStartsWith k "-"

/-- `split_variables_and_arguments`: split a parameter dictionary into
(variables, arguments), both in insertion order. -/
def splitVariablesAndArguments (pd : ParamDict) : ParamDict × ParamDict :=
  (pd.filter (fun kv => !isArgKey kv.1), pd.filter (fun kv => isArgKey kv.1))

/-- The `slurm` config field before normalization: a flat string or a
flag-to-value mapping. -/
inductive SlurmSpec where
  | flat (s : String)
  | dict (m : List (String × String))
deriving DecidableEq

/-- `normalize_slurm` of run.py: a string is kept; a mapping becomes a
space-joined sequence of `--flag=value` (long flags) or `flag value`
(short flags). -/
def normalizeSlurm : SlurmSpec → String
  | .flat s => s
  | .dict m =>
      pyJoin " " (m.map (fun kv =>
        if pyStartsWith kv.1 "--" then kv.1 ++ "=" ++ kv.2 else kv.1 ++ " " ++ kv.2))

/-- The `dependency` config field before normalization: a grid name or a
list of grid names. -/
inductive DepSpec where
  | str (s : String)
  | list (l : List String)
deriving DecidableEq

/-- The `Grid` dataclass of run.py after `__post_init__` ran: `params`
is the expanded list of parameter dictionaries, `slurm` is a flat
string, `dependency` is a list of grid names. -/
structure Grid where
  name : String
  script : Option String := Option.none
  command : Option String := Option.none
  env : Option String := Option.none
  params : List ParamDict := []
  slurm : String := ""
  completion : Option String := Option.none
  precondition : Option String := Option.none
  chain : Int := 1
  dependency : List String := []
deriving DecidableEq

/-- Python `l or d` on lists: the left operand unless it is empty. -/
def pyOrList (l d : List α) : List α :=
  if l.isEmpty then d else l

/-- `Grid` construction including `__post_init__` (run.py lines 49-54):
parameters are normalized and replaced by `[{}]` when the expansion is
empty, `slurm` is flattened, and a truthy string `dependency` becomes a
one-element list (a falsy one stays the empty string, over which the
dependency loop iterates characterwise and finds nothing — observably
the empty list). -/
def mkGrid (E : Env) (name : String) (script command condaEnv : Option String)
    (params : PSpec) (slurm : SlurmSpec) (completion precondition : Option String)
    (chain : Int) (dependency : DepSpec) : Grid :=
  { name := name
    script := script
    command := command
    env := condaEnv
    params := pyOrList (normalizeParameters E params) [[]]
    slurm := normalizeSlurm slurm
    completion := completion
    precondition := precondition
    chain := chain
    dependency :=
      match dependency with
      | .str s => if s = "" then [] else [s]
      | .list l => l }

/-- The precondition block of `Grid.should_skip` fires: a precondition
template is declared (truthy) and the substituted, user-expanded path
does not exist. -/
def precondTriggers (E : Env) (g : Grid) (pd : ParamDict) : Bool :=
  pyTruthyStr g.precondition &&
    !(E.pathExists (E.expanduser (E.pyFormat (g.precondition.getD "") pd)))

/-- The completion block of `Grid.should_skip` fires: a completion
template is declared (truthy) and the substituted, user-expanded path
exists. -/
def completionTriggers (E : Env) (g : Grid) (pd : ParamDict) : Bool :=
  pyTruthyStr g.completion &&
    E.pathExists (E.expanduser (E.pyFormat (g.completion.getD "") pd))

/-- `Grid.should_skip` (run.py lines 56-68): the precondition check runs
first, then the completion check, the latter overwriting `(skip,
reason)` when both fire. -/
def shouldSkip (E : Env) (g : Grid) (pd : ParamDict) : Bool × String :=
  let sr0 : Bool × String := (false, "")
  let sr1 :=
    if precondTriggers E g pd then
      (true, "Precondition " ++ E.pyFormat (g.precondition.getD "") pd ++ " does not exist")
    else sr0
  if completionTriggers E g pd then
    (true, "Completion check file exists at " ++ E.pyFormat (g.completion.getD "") pd)
  else sr1

/-- `Grid.job_name`: the grid name template substituted with one
parameter dictionary. -/
def jobNameOf (E : Env) (g : Grid) (pd : ParamDict) : String :=
  E.pyFormat g.name pd

/-- Outcome vocabulary of the skip evaluation (spec section 4.2). -/
inductive SkipOutcome where
  | Proceed
  | SkipAlreadyActive
  | SkipPrecondition
  | SkipCompletion
deriving DecidableEq

/-- The skip evaluation as `JobSubmitter.submit_grid` actually performs
it (run.py lines 201-208): `Grid.should_skip` is consulted first — with
the completion check overriding the precondition check inside it — and
only if it does not skip is the rendered job name compared against the
running-job list. -/
def skipEval (E : Env) (g : Grid) (pd : ParamDict) (running : List String) : SkipOutcome :=
  if (shouldSkip E g pd).1 then
    if completionTriggers E g pd then .SkipCompletion else .SkipPrecondition
  else if running.contains (jobNameOf E g pd) then .SkipAlreadyActive
  else .Proceed

/-- The dependency ledger `JobSubmitter.job_ids`: grid name to the ids
successfully obtained for that grid this run, in insertion order. -/
abbrev Ledger := List (String × List String)

/-- The `dependency_parts` list built by
`JobSubmitter.get_dependency_string` (run.py lines 98-108): an
`afterany` part for a truthy previous chain id, then an `afterok` part
for each dependency grid present in the ledger, its ids colon-joined. -/
def dependencyParts (job_ids : Ledger) (g : Grid) (previous_job_id : Option String) :
    List String :=
  (match previous_job_id with
   | Option.some p => if p = "" then [] else ["afterany:" ++ p]
   | Option.none => []) ++
  g.dependency.filterMap (fun dep_grid =>
    match job_ids.lookup dep_grid with
    | Option.some ids => Option.some ("afterok:" ++ pyJoin ":" ids)
    | Option.none => Option.none)

/-- `JobSubmitter.get_dependency_string` (run.py lines 94-112): the
comma-joined parts under one `--dependency=` directive, or the empty
string when no part contributes. -/
def getDependencyString (job_ids : Ledger) (g : Grid) (previous_job_id : Option String) :
    String :=
  let parts := dependencyParts job_ids g previous_job_id
  if parts.isEmpty then "" else "--dependency=" ++ pyJoin "," parts

/-- Scanner for Python `str.split()`: `cur` holds the characters of the
word in progress, reversed; whitespace closes a word, empty words are
never emitted. -/
def pySplitAux : List Char → List Char → List String
  | [], cur => if cur.isEmpty then [] else [String.mk cur.reverse]
  | c :: cs, cur =>
      if c.isWhitespace then
        if cur.isEmpty then pySplitAux cs []
        else String.mk cur.reverse :: pySplitAux cs []
      else pySplitAux cs (c :: cur)

/-- Python `str.split()` with no argument: split on whitespace runs,
discarding empty tokens. -/
def pySplit (s : String) : List String :=
  pySplitAux s.data []

/-- Strict lexicographic comparison of character lists by code point:
Python's string `<`. -/
def lexLTb : List Char → List Char → Bool
  | [], [] => false
  | [], _ :: _ => true
  | _ :: _, [] => false
  | a :: as, b :: bs => if a = b then lexLTb as bs else decide (a.toNat < b.toNat)

/-- Python string `<`. -/
def strLTb (a b : String) : Bool :=
  lexLTb a.data b.data

/-- The strict order on arguments induced by the sort key of
`format_command` (run.py line 151), `(not key.startswith('$'), key)`
under tuple-lexicographic comparison with `False < True`: `$`-keys come
first, ties broken by the key string. -/
def argKeyLT (x y : String × PVal) : Bool :=
  let nx := !(pyStartsWith x.1 "$")
  let ny := !(pyStartsWith y.1 "$")
  (!nx && ny) || ((nx == ny) && strLTb x.1 y.1)

/-- Insert an element into a sorted list, after every element strictly
smaller — i.e. before the first element of equal or larger key, which
makes the resulting sort stable like CPython's. -/
def insertLT (lt : α → α → Bool) (x : α) : List α → List α
  | [] => [x]
  | y :: ys => if lt y x then y :: insertLT lt x ys else x :: y :: ys

/-- Stable insertion sort, modelling Python `sorted` (any two stable
sorts agree, so the algorithm difference from CPython's timsort is
unobservable). -/
def sortLT (lt : α → α → Bool) : List α → List α
  | [] => []
  | x :: xs => insertLT lt x (sortLT lt xs)

/-- Python `sorted(arguments.items(), key=lambda x: (not
x[0].startswith('$'), x[0]))` of run.py line 151. -/
def sortArguments (args : ParamDict) : ParamDict :=
  sortLT argKeyLT args

/-- The per-argument token emission of run.py lines 152-158: a
`$`-argument becomes its bare `str(value)`; a flag with value `None`
becomes the flag alone; any other flag becomes the flag followed by its
double-quoted value. -/
def renderArgument (kv : String × PVal) : List String :=
  if pyStartsWith kv.1 "$" then [pvalStr kv.2]
  else
    match kv.2 with
    | PVal.none => [kv.1]
    | v => [kv.1, "\"" ++ pvalStr v ++ "\""]

/-- The `cmd_parts` list built by `JobSubmitter.format_command` (run.py
lines 114-163): conda activation, variable assignments, then either the
bare command/script (interactive) or the `sbatch` invocation with slurm
tokens, dependency directive, `-J` job name and command-heredoc or
script, then the sorted argument tokens, then the closing heredoc line
when an inline command is used in batch mode.  A grid with neither
`command` nor `script` raises `TypeError` in Python (spec section 3
leaves it implementation-defined); here the missing field reads as `""`. -/
def formatCommandParts (_E : Env) (job_ids : Ledger) (g : Grid) (pd : ParamDict)
    (job_name : String) (previous_job_id : Option String) (interactive : Bool) :
    List String :=
  let envParts :=
    if pyTruthyStr g.env then
      ["source ~/.bashrc && conda activate " ++ g.env.getD "" ++ " &&"]
    else []
  let va := splitVariablesAndArguments pd
  let varParts := va.1.map (fun kv => kv.1 ++ "=\"" ++ pvalStr kv.2 ++ "\"")
  let mainParts :=
    if interactive then
      [if pyTruthyStr g.command then g.command.getD "" else "bash -l " ++ g.script.getD ""]
    else
      ["sbatch"] ++
      (if g.slurm = "" then [] else pySplit g.slurm) ++
      (let dep_string := getDependencyString job_ids g previous_job_id
       if dep_string = "" then [] else [dep_string]) ++
      ["-J", job_name] ++
      [if pyTruthyStr g.command then "<<<EOF\\n#!\\bin\\bash -l\\n" ++ g.command.getD ""
       else g.script.getD ""]
  let argParts := (sortArguments va.2).flatMap renderArgument
  let eofParts := if pyTruthyStr g.command && !interactive then ["\nEOF"] else []
  envParts ++ varParts ++ mainParts ++ argParts ++ eofParts

/-- The tokens of `format_command` that precede the sorted argument
tokens: conda activation, variable assignments, and the interactive or
batch main part.  `formatCommandParts` is exactly this followed by the
rendered sorted arguments and the optional heredoc terminator. -/
def formatCommandFront (_E : Env) (job_ids : Ledger) (g : Grid) (pd : ParamDict)
    (job_name : String) (previous_job_id : Option String) (interactive : Bool) :
    List String :=
  (if pyTruthyStr g.env then
    ["source ~/.bashrc && conda activate " ++ g.env.getD "" ++ " &&"]
  else []) ++
  (splitVariablesAndArguments pd).1.map (fun kv => kv.1 ++ "=\"" ++ pvalStr kv.2 ++ "\"") ++
  (if interactive then
    [if pyTruthyStr g.command then g.command.getD "" else "bash -l " ++ g.script.getD ""]
  else
    ["sbatch"] ++
    (if g.slurm = "" then [] else pySplit g.slurm) ++
    (let dep_string := getDependencyString job_ids g previous_job_id
     if dep_string = "" then [] else [dep_string]) ++
    ["-J", job_name] ++
    [if pyTruthyStr g.command then "<<<EOF\\n#!\\bin\\bash -l\\n" ++ g.command.getD ""
     else g.script.getD ""])

/-- `JobSubmitter.format_command`: the parts joined with single spaces. -/
def formatCommand (E : Env) (job_ids : Ledger) (g : Grid) (pd : ParamDict)
    (job_name : String) (previous_job_id : Option String) (interactive : Bool) : String :=
  pyJoin " " (formatCommandParts E job_ids g pd job_name previous_job_id interactive)

/-- One attempt of `re.search(r"Submitted batch job (\d+)", out)` at a
fixed position: the literal pattern followed by a maximal non-empty
digit run (sbatch output is ASCII, so `Char.isDigit` matches Python's
digit class here). -/
def matchSubmittedAt (cs : List Char) : Option String :=
  let pat := "Submitted batch job ".data
  if pat.isPrefixOf cs then
    let ds := (cs.drop pat.length).takeWhile Char.isDigit
    if ds.isEmpty then Option.none else Option.some (String.mk ds)
  else Option.none

/-- Leftmost-match scan of `re.search` over the whole output. -/
def searchJobIdAux : List Char → Option String
  | [] => Option.none
  | c :: cs =>
      match matchSubmittedAt (c :: cs) with
      | Option.some s => Option.some s
      | Option.none => searchJobIdAux cs

/-- The job id `JobSubmitter.submit_job` extracts from the gateway's
stdout (run.py line 180), if any. -/
def searchJobId (out : String) : Option String :=
  searchJobIdAux out.data

/-- Result of one `subprocess.run` gateway call. -/
structure GwResult where
  returncode : Int
  stdout : String
  stderr : String
deriving DecidableEq

/-- The scheduler gateway: the result of the n-th dispatched command
(0-based, counted over the whole run). -/
abbrev Gateway := Nat → GwResult

/-- The orchestrator's mutable state: the dependency ledger
`JobSubmitter.job_ids` plus the ordered trace of commands actually
handed to the gateway (`subprocess.run` calls; dry-run commands are
only printed and never appear here). -/
structure SState where
  job_ids : Ledger
  dispatched : List String
deriving DecidableEq

/-- The ledger update of run.py lines 183-185: create the grid's entry
if absent, then append the id. -/
def ledgerAppend (job_ids : Ledger) (grid_name jid : String) : Ledger :=
  match job_ids.lookup grid_name with
  | Option.some _ =>
      job_ids.map (fun kv => if kv.1 = grid_name then (kv.1, kv.2 ++ [jid]) else kv)
  | Option.none => job_ids ++ [(grid_name, [jid])]

/-- `JobSubmitter.submit_job` (run.py lines 165-188).  Dry-run returns
the sentinel `"-1"` before any gateway call.  Otherwise the command is
dispatched; on exit 0 the output is scanned for the job id, which is
recorded in the ledger when found (`None` is returned when the scan
fails); a non-zero exit raises `RuntimeError` with the diagnostic text.
Errors carry the state reached so far, since the dispatch already
happened. -/
def submitJob (gw : Gateway) (st : SState) (cmd grid_name : String) (dry_run : Bool) :
    Except (String × SState) (Option String × SState) :=
  if dry_run then .ok (Option.some "-1", st)
  else
    let result := gw st.dispatched.length
    let st1 : SState := { st with dispatched := st.dispatched ++ [cmd] }
    if result.returncode = 0 then
      match searchJobId result.stdout with
      | Option.some job_id =>
          .ok (Option.some job_id,
               { st1 with job_ids := ledgerAppend st1.job_ids grid_name job_id })
      | Option.none => .ok (Option.none, st1)
    else .error ("Error submitting job: " ++ result.stderr, st1)

/-- The chain loop of `JobSubmitter.submit_grid` (run.py lines 210-216):
`chain` iterations, each formatting with the current `previous_job_id`,
submitting, and updating `previous_job_id` only when a truthy id came
back. -/
def submitChain (gw : Gateway) (E : Env) (g : Grid) (pd : ParamDict) (job_name : String)
    (dry_run interactive : Bool) :
    Nat → Option String → SState → Except (String × SState) SState
  | 0, _, st => .ok st
  | k + 1, previous_job_id, st =>
      let cmd := formatCommand E st.job_ids g pd job_name previous_job_id interactive
      match submitJob gw st cmd g.name dry_run with
      | .error e => .error e
      | .ok (job_id, st1) =>
          submitChain gw E g pd job_name dry_run interactive k
            (if pyTruthyStr job_id then job_id else previous_job_id) st1

/-- The per-parameter-dictionary loop of `JobSubmitter.submit_grid`
(run.py lines 198-216): skip via `should_skip`, then skip when the job
name is already running, otherwise run the chain. -/
def submitGridLoop (gw : Gateway) (E : Env) (running : List String) (g : Grid)
    (dry_run interactive : Bool) :
    List ParamDict → SState → Except (String × SState) SState
  | [], st => .ok st
  | pd :: rest, st =>
      if (shouldSkip E g pd).1 then
        submitGridLoop gw E running g dry_run interactive rest st
      else if running.contains (jobNameOf E g pd) then
        submitGridLoop gw E running g dry_run interactive rest st
      else
        match submitChain gw E g pd (jobNameOf E g pd) dry_run interactive
            g.chain.toNat Option.none st with
        | .error e => .error e
        | .ok st1 => submitGridLoop gw E running g dry_run interactive rest st1

/-- `JobSubmitter.submit_grid` (run.py lines 190-216): when every
parameter dictionary is skipped by `should_skip` the grid is reported
and nothing runs; otherwise each dictionary goes through the loop. -/
def submitGrid (gw : Gateway) (E : Env) (running : List String) (g : Grid)
    (dry_run interactive : Bool) (st : SState) : Except (String × SState) SState :=
  if g.params.all (fun pd => (shouldSkip E g pd).1) then .ok st
  else submitGridLoop gw E running g dry_run interactive g.params st

/-- The non-empty-selection loop of `JobSubmitter.submit_all` (run.py
lines 224-229): each name is checked against the configuration as it is
reached; an unknown name raises `ValueError` at that point. -/
def submitSelectionLoop (gw : Gateway) (E : Env) (running : List String)
    (grids : List (String × Grid)) (dry_run interactive : Bool) :
    List String → SState → Except (String × SState) SState
  | [], st => .ok st
  | grid_name :: rest, st =>
      match grids.lookup grid_name with
      | Option.none => .error ("Grid " ++ grid_name ++ " not found in configuration", st)
      | Option.some g =>
          match submitGrid gw E running g dry_run interactive st with
          | .error e => .error e
          | .ok st1 => submitSelectionLoop gw E running grids dry_run interactive rest st1

/-- The empty-selection branch of `JobSubmitter.submit_all` (run.py
lines 221-223): every configured grid in declaration order. -/
def submitAllGrids (gw : Gateway) (E : Env) (running : List String)
    (dry_run interactive : Bool) :
    List (String × Grid) → SState → Except (String × SState) SState
  | [], st => .ok st
  | (_, g) :: rest, st =>
      match submitGrid gw E running g dry_run interactive st with
      | .error e => .error e
      | .ok st1 => submitAllGrids gw E running dry_run interactive rest st1

/-- `JobSubmitter.submit_all` (run.py lines 219-229). -/
def submitAll (gw : Gateway) (E : Env) (running : List String)
    (grids : List (String × Grid)) (selection : List String)
    (dry_run interactive : Bool) (st : SState) : Except (String × SState) SState :=
  if selection.isEmpty then submitAllGrids gw E running dry_run interactive grids st
  else submitSelectionLoop gw E running grids dry_run interactive selection st

/-! ### Specification-side reference definitions

These definitions follow the wording of the spec, not the code; they
exist to be compared against the source-derived definitions above. -/

/-- Modelled from the spec (section 3, enumeration-order invariant): the
reverse-odometer decoding of combination index `i` — the entry for axis
`j` is its list indexed by `i` divided by the product of the lengths of
the later axes, modulo its own length (the last axis varies fastest).
`d` is a default for out-of-range reads; it is never reached for
`i < prodLen Ls`. -/
def odometerDecode (d : α) : List (List α) → Nat → List α
  | [], _ => []
  | xs :: rest, i =>
      xs.getD (i / prodLen rest % xs.length) d :: odometerDecode d rest (i % prodLen rest)

/-- Modelled from the spec (section 4.4, dependency-expression
construction): an after-any part on the previous chain link when one
exists, then an after-ok part per dependency grid that has recorded
ids, the whole joined under one `--dependency=` directive, or the empty
string when nothing contributes. -/
def specDependencyString (job_ids : Ledger) (g : Grid) (previous_job_id : Option String) :
    String :=
  let afterAny : List String :=
    match previous_job_id with
    | Option.some p => if p = "" then [] else ["afterany:" ++ p]
    | Option.none => []
  let afterOk : List String :=
    (g.dependency.filter (fun d => (job_ids.lookup d).isSome)).map
      (fun d => "afterok:" ++ pyJoin ":" ((job_ids.lookup d).getD []))
  match afterAny ++ afterOk with
  | [] => ""
  | parts => "--dependency=" ++ pyJoin "," parts

/-- Reference trace of the chain loop: the same state evolution as
`submitChain` under the assumption that every gateway call exits 0,
together with the `(command, previous_job_id)` pair of every iteration.
Used to state what `submitChain` dispatches. -/
def chainSteps (gw : Gateway) (E : Env) (g : Grid) (pd : ParamDict) (job_name : String)
    (interactive : Bool) :
    Nat → Option String → SState → List (String × Option String) × SState
  | 0, _, st => ([], st)
  | k + 1, previous_job_id, st =>
      let cmd := formatCommand E st.job_ids g pd job_name previous_job_id interactive
      let jid := searchJobId (gw st.dispatched.length).stdout
      let st1 : SState := { st with dispatched := st.dispatched ++ [cmd] }
      let st2 : SState :=
        match jid with
        | Option.some j => { st1 with job_ids := ledgerAppend st1.job_ids g.name j }
        | Option.none => st1
      let r := chainSteps gw E g pd job_name interactive k
        (if pyTruthyStr jid then jid else previous_job_id) st2
      ((cmd, previous_job_id) :: r.1, r.2)

/-! ### Concrete fixtures for witnesses and counterexamples -/

/-- Trivial environment: no path exists, templating and user expansion
are identities, globs match nothing. -/
def envTriv : Env :=
  { pathExists := fun _ => false
    expanduser := fun s => s
    pyFormat := fun s _ => s
    globIGlob := fun _ _ => [] }

/-- Environment in which every path exists. -/
def envAllPaths : Env :=
  { envTriv with pathExists := fun _ => true }

/-- A minimal one-job grid submitting the script `run.sh` as `A`. -/
def gridA : Grid :=
  { name := "A", script := Option.some "run.sh", params := [[]] }

/-- Configuration holding only `gridA`. -/
def gridsOnlyA : List (String × Grid) := [("A", gridA)]

/-- Gateway whose every call succeeds announcing job 5. -/
def gwOk : Gateway := fun _ => { returncode := 0, stdout := "Submitted batch job 5", stderr := "" }

/-- Gateway for the broken-parse chain scenario: the first call yields
id 100, the second exits 0 with unparsable output, later calls yield
id 101. -/
def gwParseGap : Gateway := fun n =>
  if n = 0 then { returncode := 0, stdout := "Submitted batch job 100", stderr := "" }
  else if n = 1 then { returncode := 0, stdout := "ok", stderr := "" }
  else { returncode := 0, stdout := "Submitted batch job 101", stderr := "" }

/-- A three-link chain grid named `A`. -/
def gridChain3 : Grid :=
  { name := "A", script := Option.some "run.sh", params := [[]], chain := 3 }

/-- A grid with a completion marker template and no precondition. -/
def gridDone : Grid :=
  { name := "X", completion := Option.some "done.txt", params := [[]] }

/-- A grid with a precondition path template and no completion marker. -/
def gridPre : Grid :=
  { name := "Y", precondition := Option.some "pre.txt", params := [[]] }

/-- The empty orchestrator state at the start of a run. -/
def st0 : SState := { job_ids := [], dispatched := [] }

/-- The error component of a run result, if it failed. -/
def errOf : Except (String × SState) SState → Option (String × SState)
  | .error e => Option.some e
  | .ok _ => Option.none

/-- The success component of a run result, if it succeeded. -/
def okOf : Except (String × SState) SState → Option SState
  | .error _ => Option.none
  | .ok st => Option.some st

/-- A plain one-job grid named `X` with no skip policy. -/
def gridPlain : Grid := { name := "X", params := [[]] }

/-- A two-link chain grid named `A`. -/
def gridChain2 : Grid :=
  { name := "A", script := Option.some "run.sh", params := [[]], chain := 2 }

/-- A grid named `B` whose jobs depend on grid `A`. -/
def gridB : Grid := { name := "B", dependency := ["A"], params := [[]] }

/-- Gateway whose every call exits 0 with output the id scan cannot
parse. -/
def gwNoMatch : Gateway := fun _ => { returncode := 0, stdout := "ok", stderr := "" }

/-- The spec section 8 example parameter set
`\x7blr: [0.1, 0.01], seed: \x7brange: [0, 2]\x7d\x7d`. -/
def exampleParams : RawParams :=
  [("lr", RawValue.list [PVal.float "0.1", PVal.float "0.01"]),
   ("seed", RawValue.special { range := Option.some [0, 2] })]

/-- The spec section 8 example argument dictionary
`\x7b"$1": "train.py", "--epochs": 10, "--verbose": None\x7d`. -/
def exampleArgsPd : ParamDict :=
  [("$1", PVal.str "train.py"), ("--epochs", PVal.int 10), ("--verbose", PVal.none)]

/-! ## Order facts about the argument comparison -/

theorem lexLTb_asymm : ∀ as bs : List Char, lexLTb as bs = true → lexLTb bs as = false
  | [], [], h => by simp [lexLTb] at h
  | [], _ :: _, _ => by simp [lexLTb]
  | _ :: _, [], h => by simp [lexLTb] at h
  | a :: as, b :: bs, h => by
      by_cases hab : a = b
      · subst hab
        simp only [lexLTb, if_pos rfl] at h ⊢
        exact lexLTb_asymm as bs h
      · have hba : ¬(b = a) := fun hc => hab hc.symm
        simp only [lexLTb, if_neg hab, if_neg hba, decide_eq_true_eq,
          decide_eq_false_iff_not] at h ⊢
        omega

theorem lexLTb_trans :
    ∀ as bs cs : List Char, lexLTb as bs = true → lexLTb bs cs = true → lexLTb as cs = true
  | [], [], _, h1, _ => by simp [lexLTb] at h1
  | [], _ :: _, [], _, h2 => by simp [lexLTb] at h2
  | [], _ :: _, _ :: _, _, _ => by simp [lexLTb]
  | _ :: _, [], _, h1, _ => by simp [lexLTb] at h1
  | _ :: _, _ :: _, [], _, h2 => by simp [lexLTb] at h2
  | a :: as, b :: bs, c :: cs, h1, h2 => by
      by_cases hab : a = b <;> by_cases hbc : b = c
      · subst hab; subst hbc
        simp only [lexLTb, if_pos rfl] at h1 h2 ⊢
        exact lexLTb_trans as bs cs h1 h2
      · subst hab
        simp only [lexLTb, if_pos rfl, if_neg hbc, decide_eq_true_eq] at h2 ⊢
        exact h2
      · subst hbc
        simp only [lexLTb, if_neg hab, decide_eq_true_eq] at h1 ⊢
        exact h1
      · simp only [lexLTb, if_neg hab, if_neg hbc, decide_eq_true_eq] at h1 h2
        by_cases hac : a = c
        · subst hac; omega
        · simp only [lexLTb, if_neg hac, decide_eq_true_eq]
          omega

theorem lexLTb_eq_of_both_false :
    ∀ as bs : List Char, lexLTb as bs = false → lexLTb bs as = false → as = bs
  | [], [], _, _ => rfl
  | [], _ :: _, h1, _ => by simp [lexLTb] at h1
  | _ :: _, [], _, h2 => by simp [lexLTb] at h2
  | a :: as, b :: bs, h1, h2 => by
      by_cases hab : a = b
      · subst hab
        simp only [lexLTb, if_pos rfl] at h1 h2
        exact congrArg (a :: ·) (lexLTb_eq_of_both_false as bs h1 h2)
      · have hba : ¬(b = a) := fun hc => hab hc.symm
        simp only [lexLTb, if_neg hab, if_neg hba, decide_eq_false_iff_not] at h1 h2
        have hn : a.toNat = b.toNat := by omega
        exact absurd (Char.ext (UInt32.ext hn)) hab

theorem lexLTb_negtrans (as bs cs : List Char)
    (h1 : lexLTb bs as = false) (h2 : lexLTb cs bs = false) : lexLTb cs as = false := by
  cases hca : lexLTb cs as with
  | false => rfl
  | true =>
      exfalso
      cases hbc : lexLTb bs cs with
      | false =>
          have hcb : cs = bs := lexLTb_eq_of_both_false cs bs h2 hbc
          rw [hcb] at hca
          rw [h1] at hca
          exact Bool.false_ne_true hca
      | true =>
          have ht := lexLTb_trans bs cs as hbc hca
          rw [h1] at ht
          exact Bool.false_ne_true ht

theorem strLTb_asymm (a b : String) (h : strLTb a b = true) : strLTb b a = false :=
  lexLTb_asymm a.data b.data h

theorem strLTb_negtrans (a b c : String)
    (h1 : strLTb b a = false) (h2 : strLTb c b = false) : strLTb c a = false :=
  lexLTb_negtrans a.data b.data c.data h1 h2

theorem argKeyLT_asymm (x y : String × PVal) (h : argKeyLT x y = true) :
    argKeyLT y x = false := by
  simp only [argKeyLT] at h ⊢
  cases hx : !(pyStartsWith x.1 "$") <;> cases hy : !(pyStartsWith y.1 "$") <;>
    simp [hx, hy] at h ⊢
  · exact strLTb_asymm x.1 y.1 h
  · exact strLTb_asymm x.1 y.1 h

theorem argKeyLT_negtrans (x y z : String × PVal)
    (h1 : argKeyLT y x = false) (h2 : argKeyLT z y = false) : argKeyLT z x = false := by
  simp only [argKeyLT] at h1 h2 ⊢
  cases hx : !(pyStartsWith x.1 "$") <;> cases hy : !(pyStartsWith y.1 "$") <;>
    cases hz : !(pyStartsWith z.1 "$") <;> simp [hx, hy, hz] at h1 h2 ⊢
  · exact strLTb_negtrans x.1 y.1 z.1 h1 h2
  · exact strLTb_negtrans x.1 y.1 z.1 h1 h2

/-! ## Generic facts about the stable insertion sort -/

theorem insertLT_perm (lt : α → α → Bool) (x : α) :
    ∀ l : List α, (insertLT lt x l).Perm (x :: l)
  | [] => List.Perm.refl _
  | y :: ys => by
      simp only [insertLT]
      by_cases h : lt y x = true
      · rw [if_pos h]
        exact ((insertLT_perm lt x ys).cons y).trans (List.Perm.swap x y ys)
      · rw [if_neg h]

theorem sortLT_perm (lt : α → α → Bool) : ∀ l : List α, (sortLT lt l).Perm l
  | [] => List.Perm.refl _
  | x :: xs => (insertLT_perm lt x (sortLT lt xs)).trans ((sortLT_perm lt xs).cons x)

theorem mem_insertLT (lt : α → α → Bool) (x a : α) (l : List α) :
    a ∈ insertLT lt x l ↔ a = x ∨ a ∈ l := by
  rw [(insertLT_perm lt x l).mem_iff, List.mem_cons]

theorem insertLT_pairwise (lt : α → α → Bool)
    (hasym : ∀ a b, lt a b = true → lt b a = false)
    (hntrans : ∀ a b c, lt b a = false → lt c b = false → lt c a = false) (x : α) :
    ∀ l : List α, l.Pairwise (fun a b => lt b a = false) →
      (insertLT lt x l).Pairwise (fun a b => lt b a = false)
  | [], _ => by simp [insertLT]
  | y :: ys, h => by
      rcases List.pairwise_cons.mp h with ⟨hy, hys⟩
      simp only [insertLT]
      by_cases hlt : lt y x = true
      · rw [if_pos hlt]
        refine List.pairwise_cons.mpr ⟨?_, insertLT_pairwise lt hasym hntrans x ys hys⟩
        intro b hb
        rcases (mem_insertLT lt x b ys).mp hb with hbx | hbys
        · rw [hbx]; exact hasym y x hlt
        · exact hy b hbys
      · rw [if_neg hlt]
        refine List.pairwise_cons.mpr ⟨?_, h⟩
        intro b hb
        rcases List.mem_cons.mp hb with hby | hbys
        · rw [hby]; exact Bool.eq_false_iff.mpr hlt
        · exact hntrans x y b (Bool.eq_false_iff.mpr hlt) (hy b hbys)

theorem sortLT_pairwise (lt : α → α → Bool)
    (hasym : ∀ a b, lt a b = true → lt b a = false)
    (hntrans : ∀ a b c, lt b a = false → lt c b = false → lt c a = false) :
    ∀ l : List α, (sortLT lt l).Pairwise (fun a b => lt b a = false)
  | [] => List.Pairwise.nil
  | x :: xs =>
      insertLT_pairwise lt hasym hntrans x (sortLT lt xs)
        (sortLT_pairwise lt hasym hntrans xs)

/-! ## The Cartesian product in reverse-odometer order -/

theorem map_getD_range (d : α) :
    ∀ l : List α, (List.range l.length).map (fun i => l.getD i d) = l
  | [] => by simp
  | x :: xs => by
      rw [List.length_cons, List.range_succ_eq_map, List.map_cons, List.map_map]
      simp only [List.getD_cons_zero, Function.comp_def, Nat.succ_eq_add_one,
        List.getD_cons_succ]
      rw [map_getD_range d xs]

theorem range_mul_eq_flatMap (n m : ℕ) :
    List.range (n * m) =
      (List.range n).flatMap (fun q => (List.range m).map (fun r => q * m + r)) := by
  induction n with
  | zero => simp
  | succ n ih =>
      rw [List.range_succ, List.flatMap_append, ← ih, Nat.succ_mul, List.range_add]
      simp

theorem odometerDecode_length (d : α) :
    ∀ (Ls : List (List α)) (i : ℕ), (odometerDecode d Ls i).length = Ls.length
  | [], _ => rfl
  | _ :: rest, i => by
      simp only [odometerDecode, List.length_cons]
      rw [odometerDecode_length d rest]

theorem prodLists_eq_range_map (d : α) :
    ∀ Ls : List (List α),
      prodLists Ls = (List.range (prodLen Ls)).map (odometerDecode d Ls)
  | [] => by
      show [[]] = (List.range 1).map (odometerDecode d [])
      rw [(by decide : List.range 1 = [0])]
      simp [odometerDecode]
  | xs :: rest => by
      show xs.flatMap (fun x => (prodLists rest).map (fun c => x :: c)) = _
      rw [prodLists_eq_range_map d rest]
      have hlen : prodLen (xs :: rest) = xs.length * prodLen rest := by
        simp [prodLen]
      rw [hlen, range_mul_eq_flatMap]
      conv_lhs => rw [← map_getD_range d xs]
      rw [List.flatMap_map, List.map_flatMap]
      refine List.flatMap_congr ?_
      intro q hq
      rw [List.map_map, List.map_map]
      refine List.map_congr_left ?_
      intro r hr
      have hq' : q < xs.length := List.mem_range.mp hq
      have hr' : r < prodLen rest := List.mem_range.mp hr
      have hm : 0 < prodLen rest := Nat.lt_of_le_of_lt (Nat.zero_le r) hr'
      simp only [Function.comp_apply, odometerDecode]
      rw [Nat.mul_comm q (prodLen rest), Nat.mul_add_div hm, Nat.div_eq_of_lt hr',
        Nat.add_zero, Nat.mod_eq_of_lt hq', Nat.mul_add_mod, Nat.mod_eq_of_lt hr']

theorem expandSet_eq (E : Env) (ps : RawParams) :
    expandSet E ps =
      (prodLists (coercedLists E ps)).map (fun c => (ps.map Prod.fst).zip c) := by
  simp only [expandSet, coercedLists, List.map_map]
  rfl

theorem expandSet_length (E : Env) (ps : RawParams) :
    (expandSet E ps).length = ((coercedLists E ps).map List.length).prod := by
  rw [expandSet_eq, prodLists_eq_range_map PVal.none]
  simp [prodLen]

/-! ## Claim theorems -/

set_option maxRecDepth 200000

/-- C5: for every parameter set, expansion yields the Cartesian product
of the coerced per-key lists — exactly `n1 * ... * nk` dictionaries,
enumerated in reverse-odometer order (last key fastest) with keys
preserved in input order; a list of parameter sets concatenates each
set's output in order, so totals sum across sets (a zero-length key
contributes a zero factor); the spec's `lr`/`seed` example expands to
its four dictionaries in the stated order. -/
theorem c5_cartesian_expansion (E : Env) (ps : RawParams) (sets : List RawParams) :
    expandSet E ps =
      (List.range (prodLen (coercedLists E ps))).map
        (fun i => (ps.map Prod.fst).zip (odometerDecode PVal.none (coercedLists E ps) i))
    ∧ (expandSet E ps).length = ((coercedLists E ps).map List.length).prod
    ∧ normalizeParameters E (.many sets) = sets.flatMap (expandSet E)
    ∧ (normalizeParameters E (.many sets)).length
        = (sets.map (fun s => ((coercedLists E s).map List.length).prod)).sum
    ∧ (∀ pd, pd ∈ expandSet E ps → pd.map Prod.fst = ps.map Prod.fst)
    ∧ normalizeParameters envTriv (.one exampleParams) =
        [[("lr", PVal.float "0.1"), ("seed", PVal.int 0)],
         [("lr", PVal.float "0.1"), ("seed", PVal.int 1)],
         [("lr", PVal.float "0.01"), ("seed", PVal.int 0)],
         [("lr", PVal.float "0.01"), ("seed", PVal.int 1)]] := by
  refine ⟨?_, expandSet_length E ps, rfl, ?_, ?_, by decide⟩
  · rw [expandSet_eq, prodLists_eq_range_map PVal.none, List.map_map]
    rfl
  · show (sets.flatMap (expandSet E)).length = _
    rw [List.length_flatMap]
    congr 1
    refine List.map_congr_left ?_
    intro s _
    exact expandSet_length E s
  · intro pd hpd
    rw [expandSet_eq] at hpd
    rcases List.mem_map.mp hpd with ⟨c, hc, rfl⟩
    rw [prodLists_eq_range_map PVal.none] at hc
    rcases List.mem_map.mp hc with ⟨i, _, rfl⟩
    refine List.map_fst_zip _ _ ?_
    rw [odometerDecode_length, coercedLists, List.length_map, List.length_map]

/-- C5 witness: the expansion law instantiated at the spec's concrete
example. -/
theorem c5_witness :
    normalizeParameters envTriv (.one exampleParams) =
      [[("lr", PVal.float "0.1"), ("seed", PVal.int 0)],
       [("lr", PVal.float "0.1"), ("seed", PVal.int 1)],
       [("lr", PVal.float "0.01"), ("seed", PVal.int 0)],
       [("lr", PVal.float "0.01"), ("seed", PVal.int 1)]] :=
  (c5_cartesian_expansion envTriv exampleParams []).2.2.2.2.2

/-- C7: a constructed Grid's expanded parameter-dictionary list is never
empty, and a Grid declaring no parameter set (the dataclass default, an
empty list) expands to exactly one empty dictionary. -/
theorem c7_params_never_empty (E : Env) (name : String)
    (script command condaEnv : Option String) (params : PSpec) (slurm : SlurmSpec)
    (completion precondition : Option String) (chain : Int) (dependency : DepSpec) :
    (mkGrid E name script command condaEnv params slurm completion precondition
        chain dependency).params ≠ []
    ∧ (mkGrid E name script command condaEnv (.many []) slurm completion precondition
        chain dependency).params = [[]] := by
  constructor
  · show pyOrList (normalizeParameters E params) [[]] ≠ []
    unfold pyOrList
    split
    · simp
    · rename_i h
      simpa [List.isEmpty_iff] using h
  · rfl

/-- C9: when every declared parameter set expands to zero dictionaries,
`__post_init__` replaces the empty expansion with a single empty
dictionary, so the grid holds one unparameterized job. -/
theorem c9_empty_expansion_replaced (E : Env) (name : String)
    (script command condaEnv : Option String) (params : PSpec) (slurm : SlurmSpec)
    (completion precondition : Option String) (chain : Int) (dependency : DepSpec)
    (h : normalizeParameters E params = []) :
    (mkGrid E name script command condaEnv params slurm completion precondition
        chain dependency).params = [[]] := by
  show pyOrList (normalizeParameters E params) [[]] = [[]]
  rw [h]
  rfl

/-- C9 witness: a parameter set whose only key has an empty value list
expands to nothing, and the constructed grid gets one empty dictionary. -/
theorem c9_witness :
    normalizeParameters envTriv (.many [[("x", RawValue.list [])]]) = []
    ∧ (mkGrid envTriv "G" Option.none Option.none Option.none
        (.many [[("x", RawValue.list [])]]) (.flat "") Option.none Option.none 1
        (.list [])).params = [[]] :=
  ⟨by decide,
   c9_empty_expansion_replaced envTriv "G" Option.none Option.none Option.none
     (.many [[("x", RawValue.list [])]]) (.flat "") Option.none Option.none 1
     (.list []) (by decide)⟩

/-- C8: with dry-run enabled, `submit_job` returns the sentinel id
`"-1"` and leaves the state untouched for every gateway: nothing is
dispatched and nothing is recorded in the dependency ledger, so the
sentinel cannot reach the dependency expression of a later non-dry-run
invocation (whose ledger is rebuilt from scratch). -/
theorem c8_dry_run_sentinel (gw : Gateway) (st : SState) (cmd grid_name : String) :
    submitJob gw st cmd grid_name true = .ok (Option.some "-1", st) :=
  rfl

/-- C1 counterexample: with the rendered job name active, a grid whose
completion marker exists is skipped as `SkipCompletion`, and a grid
whose precondition path is missing is skipped as `SkipPrecondition` —
in neither case is the outcome `SkipAlreadyActive`, so the active-job
check is not evaluated first. -/
theorem c1_counterexample :
    (["X"].contains (jobNameOf envAllPaths gridDone []) = true
     ∧ skipEval envAllPaths gridDone [] ["X"] ≠ SkipOutcome.SkipAlreadyActive
     ∧ skipEval envAllPaths gridDone [] ["X"] = SkipOutcome.SkipCompletion)
    ∧ (["Y"].contains (jobNameOf envTriv gridPre []) = true
     ∧ skipEval envTriv gridPre [] ["Y"] ≠ SkipOutcome.SkipAlreadyActive
     ∧ skipEval envTriv gridPre [] ["Y"] = SkipOutcome.SkipPrecondition) := by
  refine ⟨⟨by decide, by decide, by decide⟩, ⟨by decide, by decide, by decide⟩⟩

theorem shouldSkip_fst_eq (E : Env) (g : Grid) (pd : ParamDict) :
    (shouldSkip E g pd).1 = (precondTriggers E g pd || completionTriggers E g pd) := by
  unfold shouldSkip
  cases hp : precondTriggers E g pd <;> cases hc : completionTriggers E g pd <;>
    simp [hp, hc]

/-- C1 amended: when the rendered job name is active, the outcome is
never `Proceed`, and it is `SkipAlreadyActive` exactly when neither the
precondition-missing check nor the completion-marker check fires; a
firing completion check always yields `SkipCompletion` (overriding a
simultaneously firing precondition check), and a precondition check
firing alone yields `SkipPrecondition` — the `should_skip` checks are
evaluated first and preempt the active-job check. -/
theorem c1_active_check_evaluated_last (E : Env) (g : Grid) (pd : ParamDict)
    (running : List String) (h : running.contains (jobNameOf E g pd) = true) :
    skipEval E g pd running ≠ SkipOutcome.Proceed
    ∧ (skipEval E g pd running = SkipOutcome.SkipAlreadyActive
        ↔ precondTriggers E g pd = false ∧ completionTriggers E g pd = false)
    ∧ (completionTriggers E g pd = true →
        skipEval E g pd running = SkipOutcome.SkipCompletion)
    ∧ (precondTriggers E g pd = true → completionTriggers E g pd = false →
        skipEval E g pd running = SkipOutcome.SkipPrecondition) := by
  have hmem : jobNameOf E g pd ∈ running := by simpa using h
  refine ⟨?_, ⟨?_, ?_⟩, ?_, ?_⟩
  · cases hs : (shouldSkip E g pd).1 with
    | false => simp [skipEval, hs, hmem]
    | true => by_cases hc : completionTriggers E g pd = true <;> simp [skipEval, hs, hc]
  · intro hsa
    cases hp : precondTriggers E g pd <;> cases hc : completionTriggers E g pd
    · exact ⟨rfl, rfl⟩
    all_goals
      have hs : (shouldSkip E g pd).1 = true := by
        rw [shouldSkip_fst_eq, hp, hc]
        rfl
      simp [skipEval, hs, hc] at hsa
  · intro hcon
    have hs : (shouldSkip E g pd).1 = false := by
      rw [shouldSkip_fst_eq, hcon.1, hcon.2]
      rfl
    simp [skipEval, hs, hmem]
  · intro hc
    have hs : (shouldSkip E g pd).1 = true := by
      rw [shouldSkip_fst_eq, hc]
      simp
    simp [skipEval, hs, hc]
  · intro hp hc
    have hs : (shouldSkip E g pd).1 = true := by
      rw [shouldSkip_fst_eq, hp, hc]
      rfl
    simp [skipEval, hs, hc]

/-- C1 witness: a grid with no skip policy and an active job name gets
outcome `SkipAlreadyActive`, and the characterization holds there. -/
theorem c1_witness :
    ["X"].contains (jobNameOf envTriv gridPlain []) = true
    ∧ skipEval envTriv gridPlain [] ["X"] ≠ SkipOutcome.Proceed
    ∧ (skipEval envTriv gridPlain [] ["X"] = SkipOutcome.SkipAlreadyActive
        ↔ precondTriggers envTriv gridPlain [] = false
          ∧ completionTriggers envTriv gridPlain [] = false) :=
  ⟨by decide,
   (c1_active_check_evaluated_last envTriv gridPlain [] ["X"] (by decide)).1,
   (c1_active_check_evaluated_last envTriv gridPlain [] ["X"] (by decide)).2.1⟩

theorem crossParts_eq (job_ids : Ledger) (deps : List String) :
    deps.filterMap (fun dep_grid =>
      match job_ids.lookup dep_grid with
      | Option.some ids => Option.some ("afterok:" ++ pyJoin ":" ids)
      | Option.none => Option.none)
    = (deps.filter (fun d => (job_ids.lookup d).isSome)).map
        (fun d => "afterok:" ++ pyJoin ":" ((job_ids.lookup d).getD [])) := by
  induction deps with
  | nil => rfl
  | cons d ds ih =>
      cases h : job_ids.lookup d <;>
        simp [List.filterMap_cons, List.filter_cons, h, ih]

/-- C4: the dependency expression equals the spec's construction — an
after-any part on a truthy previous chain id plus an after-ok part per
dependency grid with recorded ids (colon-joined), comma-joined under
one `--dependency=`; dependency grids with nothing recorded contribute
nothing (and when nothing contributes at all the result is the empty
string); a recorded id list `[101, 102]` yields an after-ok part
covering both. -/
theorem c4_dependency_expression (job_ids : Ledger) (g : Grid)
    (previous_job_id : Option String) :
    getDependencyString job_ids g previous_job_id
      = specDependencyString job_ids g previous_job_id
    ∧ ((∀ d, d ∈ g.dependency → job_ids.lookup d = Option.none) →
        getDependencyString job_ids g Option.none = "")
    ∧ (∀ d ids, d ∈ g.dependency → job_ids.lookup d = Option.some ids →
        ("afterok:" ++ pyJoin ":" ids) ∈ dependencyParts job_ids g previous_job_id)
    ∧ getDependencyString [("A", ["101", "102"])] gridB Option.none
        = "--dependency=afterok:101:102" := by
  refine ⟨?_, ?_, ?_, by decide⟩
  · simp only [getDependencyString, specDependencyString, dependencyParts, crossParts_eq]
    cases hL : (match previous_job_id with
        | Option.some p => if p = "" then [] else ["afterany:" ++ p]
        | Option.none => ([] : List String)) ++
        (g.dependency.filter (fun d => (job_ids.lookup d).isSome)).map
          (fun d => "afterok:" ++ pyJoin ":" ((job_ids.lookup d).getD [])) with
    | nil => rfl
    | cons a L => rfl
  · intro h
    have hparts : dependencyParts job_ids g Option.none = [] := by
      simp only [dependencyParts, List.nil_append]
      refine List.filterMap_eq_nil_iff.mpr ?_
      intro d hd
      rw [h d hd]
    simp [getDependencyString, hparts]
  · intro d ids hd hlook
    refine List.mem_append.mpr (Or.inr ?_)
    refine List.mem_filterMap.mpr ⟨d, hd, ?_⟩
    rw [hlook]

/-- C4 witness: the after-ok law at the concrete ledger of the spec's
cross-grid example. -/
theorem c4_witness :
    getDependencyString [("A", ["101", "102"])] gridB Option.none
      = "--dependency=afterok:101:102" :=
  (c4_dependency_expression [] gridB Option.none).2.2.2

theorem argKeyLT_false_unpack (a b : String × PVal) (h : argKeyLT b a = false) :
    (pyStartsWith b.1 "$" = true → pyStartsWith a.1 "$" = true)
    ∧ (pyStartsWith a.1 "$" = pyStartsWith b.1 "$" → strLTb b.1 a.1 = false) := by
  simp only [argKeyLT] at h
  cases ha : pyStartsWith a.1 "$" <;> cases hb : pyStartsWith b.1 "$" <;>
    simp [ha, hb] at h ⊢ <;> exact h

/-- C6: the formatted invocation is the non-argument front followed by
the rendered sorted arguments and the heredoc terminator; sorting is a
permutation of the argument items putting every `$`-key before every
other key and ordering each group by key string; split classifies
argument keys as exactly the `$`/`-`-prefixed ones; `$`-arguments
render as their bare value, `None` flags as the flag alone, other flags
as flag plus quoted value — on the spec example yielding
`train.py --epochs "10" --verbose`. -/
theorem c6_argument_rendering (E : Env) (job_ids : Ledger) (g : Grid) (pd : ParamDict)
    (job_name : String) (previous_job_id : Option String) (interactive : Bool) :
    formatCommandParts E job_ids g pd job_name previous_job_id interactive
      = formatCommandFront E job_ids g pd job_name previous_job_id interactive
        ++ (sortArguments (splitVariablesAndArguments pd).2).flatMap renderArgument
        ++ (if pyTruthyStr g.command && !interactive then ["\nEOF"] else [])
    ∧ (sortArguments (splitVariablesAndArguments pd).2).Perm
        (splitVariablesAndArguments pd).2
    ∧ (sortArguments (splitVariablesAndArguments pd).2).Pairwise
        (fun a b => argKeyLT b a = false)
    ∧ (sortArguments (splitVariablesAndArguments pd).2).Pairwise
        (fun a b => (pyStartsWith b.1 "$" = true → pyStartsWith a.1 "$" = true)
          ∧ (pyStartsWith a.1 "$" = pyStartsWith b.1 "$" → strLTb b.1 a.1 = false))
    ∧ (∀ kv, kv ∈ (splitVariablesAndArguments pd).2 → isArgKey kv.1 = true)
    ∧ (sortArguments (splitVariablesAndArguments exampleArgsPd).2).flatMap renderArgument
        = ["train.py", "--epochs", "\"10\"", "--verbose"] := by
  have hpair := sortLT_pairwise argKeyLT argKeyLT_asymm argKeyLT_negtrans
    (splitVariablesAndArguments pd).2
  refine ⟨?_, sortLT_perm argKeyLT _, hpair, ?_, ?_, by decide⟩
  · simp only [formatCommandParts, formatCommandFront, List.append_assoc]
  · exact hpair.imp (fun h => argKeyLT_false_unpack _ _ h)
  · intro kv hkv
    exact (List.mem_filter.mp hkv).2

/-- C6 witness: the rendering law instantiated at the spec's example
argument dictionary. -/
theorem c6_witness :
    (sortArguments (splitVariablesAndArguments exampleArgsPd).2).flatMap renderArgument
      = ["train.py", "--epochs", "\"10\"", "--verbose"] :=
  (c6_argument_rendering envTriv [] gridPlain [] "j" Option.none false).2.2.2.2.2

theorem submitSelectionLoop_reaches_unknown (gw : Gateway) (E : Env)
    (running : List String) (grids : List (String × Grid)) (dry_run interactive : Bool)
    (unknown : String) (post : List String)
    (h2 : grids.lookup unknown = Option.none) :
    ∀ (pre : List String) (st st1 : SState),
      submitSelectionLoop gw E running grids dry_run interactive pre st = .ok st1 →
      submitSelectionLoop gw E running grids dry_run interactive
          (pre ++ unknown :: post) st
        = .error ("Grid " ++ unknown ++ " not found in configuration", st1)
  | [], st, st1, h1 => by
      simp only [submitSelectionLoop] at h1
      injection h1 with h1
      subst h1
      simp [submitSelectionLoop, h2]
  | nm :: pre, st, st1, h1 => by
      simp only [submitSelectionLoop, List.cons_append] at h1 ⊢
      split at h1
      · exact Except.noConfusion h1
      · rename_i g heq
        split at h1
        · exact Except.noConfusion h1
        · rename_i st2 hsg
          exact submitSelectionLoop_reaches_unknown gw E running grids dry_run
            interactive unknown post h2 pre st2 st1 h1

/-- C2 corrected: an unknown grid name in the selection raises the hard
error only when it is reached — the grids listed before it have already
been submitted (their state transitions stand), and nothing from the
unknown name onward runs. -/
theorem c2_unknown_grid_aborts_when_reached (gw : Gateway) (E : Env)
    (running : List String) (grids : List (String × Grid)) (dry_run interactive : Bool)
    (pre : List String) (unknown : String) (post : List String) (st st1 : SState)
    (h1 : submitSelectionLoop gw E running grids dry_run interactive pre st = .ok st1)
    (h2 : grids.lookup unknown = Option.none) :
    submitAll gw E running grids (pre ++ unknown :: post) dry_run interactive st
      = .error ("Grid " ++ unknown ++ " not found in configuration", st1) := by
  have hne : (pre ++ unknown :: post).isEmpty = false := by
    cases pre <;> rfl
  simp only [submitAll, hne, Bool.false_eq_true, if_false]
  exact submitSelectionLoop_reaches_unknown gw E running grids dry_run interactive
    unknown post h2 pre st st1 h1

/-- C2 witness: a dry run over the selection `["A", "B"]` with only `A`
configured submits `A` and then aborts on `B`. -/
theorem c2_witness :
    submitSelectionLoop gwOk envTriv [] gridsOnlyA true false ["A"] st0 = .ok st0
    ∧ gridsOnlyA.lookup "B" = Option.none
    ∧ submitAll gwOk envTriv [] gridsOnlyA ["A", "B"] true false st0
        = .error ("Grid B not found in configuration", st0) :=
  ⟨by rfl, by decide,
   c2_unknown_grid_aborts_when_reached gwOk envTriv [] gridsOnlyA true false
     ["A"] "B" [] st0 st0 (by rfl) (by decide)⟩

/-- C2 counterexample: with the selection `["A", "B"]` where only `A`
is configured, the run does abort on `B` — but only after `A`'s job was
already dispatched to the gateway (one dispatched command, one recorded
id), refuting that no submission occurs. -/
theorem c2_counterexample :
    errOf (submitAll gwOk envTriv [] gridsOnlyA ["A", "B"] false false st0)
      = Option.some ("Grid B not found in configuration",
          { job_ids := [("A", ["5"])], dispatched := ["sbatch -J A run.sh"] }) := by
  decide

/-- C10 amended: a gateway call that exits 0 with unparsable output
makes `submit_job` return `None` without raising and without touching
the ledger (only the dispatch trace grows), and the chain loop keeps
its current `previous_job_id` for the next link — so the next link has
no after-any dependency only when no earlier link had produced an id. -/
theorem c10_parse_miss_keeps_previous (gw : Gateway) (st : SState)
    (cmd grid_name : String) (E : Env) (g : Grid) (pd : ParamDict) (job_name : String)
    (interactive : Bool) (k : Nat) (previous_job_id : Option String)
    (h1 : (gw st.dispatched.length).returncode = 0)
    (h2 : searchJobId (gw st.dispatched.length).stdout = Option.none) :
    submitJob gw st cmd grid_name false
      = .ok (Option.none, { st with dispatched := st.dispatched ++ [cmd] })
    ∧ submitChain gw E g pd job_name false interactive (k + 1) previous_job_id st
      = submitChain gw E g pd job_name false interactive k previous_job_id
          { st with dispatched := st.dispatched ++
              [formatCommand E st.job_ids g pd job_name previous_job_id interactive] } := by
  have hsub : ∀ c gn, submitJob gw st c gn false
      = .ok (Option.none, { st with dispatched := st.dispatched ++ [c] }) := by
    intro c gn
    simp [submitJob, h1, h2]
  refine ⟨hsub cmd grid_name, ?_⟩
  simp only [submitChain]
  rw [hsub]
  simp [pyTruthyStr]

/-- C10 witness: the parse-miss law at a gateway whose output carries no
job id. -/
theorem c10_witness :
    (gwNoMatch st0.dispatched.length).returncode = 0
    ∧ searchJobId (gwNoMatch st0.dispatched.length).stdout = Option.none
    ∧ (submitJob gwNoMatch st0 "c" "A" false
        = .ok (Option.none, { st0 with dispatched := ["c"] })
       ∧ submitChain gwNoMatch envTriv gridPlain [] "X" false false 1 Option.none st0
        = submitChain gwNoMatch envTriv gridPlain [] "X" false false 0 Option.none
            { st0 with dispatched :=
                [formatCommand envTriv [] gridPlain [] "X" Option.none false] }) :=
  ⟨by decide, by decide,
   c10_parse_miss_keeps_previous gwNoMatch st0 "c" "A" envTriv gridPlain [] "X"
     false 0 Option.none (by decide) (by decide)⟩

theorem chainSteps_fst_length (gw : Gateway) (E : Env) (g : Grid) (pd : ParamDict)
    (jn : String) (itv : Bool) :
    ∀ (k : Nat) (prev : Option String) (st : SState),
      (chainSteps gw E g pd jn itv k prev st).1.length = k
  | 0, _, _ => rfl
  | k + 1, prev, st => by
      simp only [chainSteps, List.length_cons]
      rw [chainSteps_fst_length gw E g pd jn itv k]

theorem chainSteps_snd_dispatched (gw : Gateway) (E : Env) (g : Grid) (pd : ParamDict)
    (jn : String) (itv : Bool) :
    ∀ (k : Nat) (prev : Option String) (st : SState),
      (chainSteps gw E g pd jn itv k prev st).2.dispatched
        = st.dispatched ++ (chainSteps gw E g pd jn itv k prev st).1.map Prod.fst
  | 0, _, st => by simp [chainSteps]
  | k + 1, prev, st => by
      cases hjid : searchJobId (gw st.dispatched.length).stdout with
      | none =>
          simp only [chainSteps, hjid, List.map_cons]
          rw [chainSteps_snd_dispatched gw E g pd jn itv k]
          simp
      | some j =>
          simp only [chainSteps, hjid, List.map_cons]
          rw [chainSteps_snd_dispatched gw E g pd jn itv k]
          simp

theorem submitChain_eq_chainSteps (gw : Gateway) (E : Env) (g : Grid) (pd : ParamDict)
    (jn : String) (itv : Bool) :
    ∀ (k : Nat) (prev : Option String) (st : SState),
      (∀ i, i < k → (gw (st.dispatched.length + i)).returncode = 0) →
      submitChain gw E g pd jn false itv k prev st
        = .ok (chainSteps gw E g pd jn itv k prev st).2
  | 0, _, _, _ => rfl
  | k + 1, prev, st, H => by
      have h0 : (gw st.dispatched.length).returncode = 0 := by
        simpa using H 0 (Nat.succ_pos k)
      cases hjid : searchJobId (gw st.dispatched.length).stdout with
      | none =>
          simp only [submitChain, submitJob, chainSteps, hjid, h0, Bool.false_eq_true,
            if_false, if_true, reduceIte]
          refine submitChain_eq_chainSteps gw E g pd jn itv k _ _ ?_
          intro i hi
          have h := H (i + 1) (Nat.succ_lt_succ hi)
          simp only [List.length_append, List.length_cons, List.length_nil]
          convert h using 3
          omega
      | some j =>
          simp only [submitChain, submitJob, chainSteps, hjid, h0, Bool.false_eq_true,
            if_false, if_true, reduceIte]
          refine submitChain_eq_chainSteps gw E g pd jn itv k _ _ ?_
          intro i hi
          have h := H (i + 1) (Nat.succ_lt_succ hi)
          simp only [List.length_append, List.length_cons, List.length_nil]
          convert h using 3
          omega

theorem chainSteps_get (gw : Gateway) (E : Env) (g : Grid) (pd : ParamDict)
    (jn : String) (itv : Bool) :
    ∀ (k : Nat) (prev : Option String) (st : SState),
      (∀ j, j < k → pyTruthyStr (searchJobId (gw (st.dispatched.length + j)).stdout)
        = true) →
      ∀ i, i < k →
        ∃ J, (chainSteps gw E g pd jn itv k prev st).1.get? i
          = Option.some (formatCommand E J g pd jn
              (if i = 0 then prev
               else searchJobId (gw (st.dispatched.length + (i - 1))).stdout) itv,
              if i = 0 then prev
              else searchJobId (gw (st.dispatched.length + (i - 1))).stdout)
  | 0, _, _, _, i, hi => absurd hi (by omega)
  | k + 1, prev, st, H, 0, _ =>
      ⟨st.job_ids, by simp [chainSteps]⟩
  | k + 1, prev, st, H, i + 1, hi => by
      have h0 : pyTruthyStr (searchJobId (gw st.dispatched.length).stdout) = true := by
        simpa using H 0 (Nat.succ_pos k)
      have hlen1 : ∀ cmd : String,
          ({ st with dispatched := st.dispatched ++ [cmd] } : SState).dispatched.length
            = st.dispatched.length + 1 := by
        intro cmd
        simp
      cases hjid : searchJobId (gw st.dispatched.length).stdout with
      | none => rw [hjid] at h0; exact absurd h0 (by simp [pyTruthyStr])
      | some j =>
          have H' : ∀ jj, jj < k →
              pyTruthyStr (searchJobId (gw
                (({ st with
                    dispatched := st.dispatched ++
                      [formatCommand E st.job_ids g pd jn prev itv],
                    job_ids := ledgerAppend st.job_ids g.name j } : SState).dispatched.length
                  + jj)).stdout) = true := by
            intro jj hjj
            have h := H (jj + 1) (Nat.succ_lt_succ hjj)
            have hL : ({ st with
                dispatched := st.dispatched ++
                  [formatCommand E st.job_ids g pd jn prev itv],
                job_ids := ledgerAppend st.job_ids g.name j } : SState).dispatched.length
                  + jj = st.dispatched.length + (jj + 1) := by
              show (st.dispatched ++ [formatCommand E st.job_ids g pd jn prev itv]).length
                + jj = _
              simp only [List.length_append, List.length_cons, List.length_nil]
              omega
            rw [hL]
            exact h
          obtain ⟨J, hJ⟩ := chainSteps_get gw E g pd jn itv k
            (if pyTruthyStr (Option.some j) then Option.some j else prev)
            { st with
              dispatched := st.dispatched ++ [formatCommand E st.job_ids g pd jn prev itv],
              job_ids := ledgerAppend st.job_ids g.name j } H' i (Nat.lt_of_succ_lt_succ hi)
          refine ⟨J, ?_⟩
          simp only [chainSteps, hjid, List.get?_cons_succ]
          rw [hJ]
          rcases Nat.eq_zero_or_pos i with hz | hpos
          · subst hz
            have hj : pyTruthyStr (Option.some j) = true := by rw [← hjid]; exact h0
            simp [hj, hjid]
          · have hne : ¬(i = 0) := by omega
            have hne1 : ¬(i + 1 = 0) := by omega
            simp only [if_neg hne, if_neg hne1, hlen1]
            have harr : st.dispatched.length + 1 + (i - 1) = st.dispatched.length + (i + 1 - 1) := by
              omega
            rw [harr]

theorem dependencyParts_head (J : Ledger) (g : Grid) (p : String) (hp : ¬(p = "")) :
    (dependencyParts J g (Option.some p)).head? = Option.some ("afterany:" ++ p) := by
  simp [dependencyParts, hp]

theorem dependencyString_ne_empty (J : Ledger) (g : Grid) (p : String) (hp : ¬(p = "")) :
    ¬(getDependencyString J g (Option.some p) = "") := by
  simp only [getDependencyString, dependencyParts, if_neg hp, List.singleton_append,
    List.isEmpty_cons, Bool.false_eq_true, if_false]
  intro hcontra
  have hlen := congrArg String.length hcontra
  rw [String.length_append] at hlen
  have h13 : ("--dependency=" : String).length = 13 := by decide
  have h0 : ("" : String).length = 0 := rfl
  rw [h13, h0] at hlen
  omega

theorem depString_mem_parts (E : Env) (J : Ledger) (g : Grid) (pd : ParamDict)
    (job_name : String) (p : String) (hp : ¬(p = "")) :
    getDependencyString J g (Option.some p)
      ∈ formatCommandParts E J g pd job_name (Option.some p) false := by
  have hne := dependencyString_ne_empty J g p hp
  simp [formatCommandParts, hne]

/-- C3: for a grid with `chain = k` and a non-skipped parameter
dictionary, when every one of the k gateway calls exits 0 and announces
a parsable job id, the chain loop succeeds after dispatching exactly k
commands, and every dispatch after the first is formatted with
`previous_job_id` equal to the id parsed from the immediately preceding
dispatch — which, being nonempty, contributes a leading `afterany` part
to the `--dependency=` directive of the formatted batch command. -/
theorem c3_chain_law (gw : Gateway) (E : Env) (g : Grid) (pd : ParamDict)
    (job_name : String) (interactive : Bool) (st : SState) (k : Nat)
    (hk : g.chain.toNat = k)
    (H : ∀ i, i < k → (gw (st.dispatched.length + i)).returncode = 0
        ∧ pyTruthyStr (searchJobId (gw (st.dispatched.length + i)).stdout) = true) :
    ∃ stf, submitChain gw E g pd job_name false interactive g.chain.toNat
        Option.none st = .ok stf
      ∧ stf.dispatched.length = st.dispatched.length + k
      ∧ (∀ i, 0 < i → i < k → ∃ J,
          stf.dispatched.get? (st.dispatched.length + i)
            = Option.some (formatCommand E J g pd job_name
                (searchJobId (gw (st.dispatched.length + (i - 1))).stdout) interactive)
          ∧ pyTruthyStr (searchJobId (gw (st.dispatched.length + (i - 1))).stdout)
              = true)
      ∧ (∀ (J : Ledger) (p : String), ¬(p = "") →
          (dependencyParts J g (Option.some p)).head? = Option.some ("afterany:" ++ p)
          ∧ getDependencyString J g (Option.some p)
              ∈ formatCommandParts E J g pd job_name (Option.some p) false) := by
  refine ⟨(chainSteps gw E g pd job_name interactive k Option.none st).2,
    ?_, ?_, ?_, ?_⟩
  · rw [hk]
    exact submitChain_eq_chainSteps gw E g pd job_name interactive k Option.none st
      (fun i hi => (H i hi).1)
  · rw [chainSteps_snd_dispatched]
    simp [chainSteps_fst_length gw E g pd job_name interactive k]
  · intro i hpos hik
    obtain ⟨J, hJ⟩ := chainSteps_get gw E g pd job_name interactive k Option.none st
      (fun j hj => (H j hj).2) i hik
    refine ⟨J, ?_, (H (i - 1) (by omega)).2⟩
    rw [chainSteps_snd_dispatched]
    rw [List.get?_append_right (Nat.le_add_right _ _)]
    have hsub : st.dispatched.length + i - st.dispatched.length = i := by omega
    rw [hsub, List.get?_map, hJ]
    have hne : ¬(i = 0) := by omega
    simp [hne]
  · intro J p hp
    exact ⟨dependencyParts_head J g p hp, depString_mem_parts E J g pd job_name p hp⟩

/-- C3 witness: a two-link chain against a gateway that always succeeds
with `Submitted batch job 5` dispatches exactly two commands. -/
theorem c3_witness :
    (gridChain2.chain.toNat = 2
     ∧ ∀ i, i < 2 → (gwOk (st0.dispatched.length + i)).returncode = 0
         ∧ pyTruthyStr (searchJobId (gwOk (st0.dispatched.length + i)).stdout) = true)
    ∧ ∃ stf, submitChain gwOk envTriv gridChain2 [] "A" false false
          gridChain2.chain.toNat Option.none st0 = .ok stf
        ∧ stf.dispatched.length = st0.dispatched.length + 2 :=
  ⟨⟨by decide, by decide⟩,
   match c3_chain_law gwOk envTriv gridChain2 [] "A" false st0 2 (by decide)
       (by decide) with
   | ⟨stf, h1, h2, _, _⟩ => ⟨stf, h1, h2⟩⟩

/-- C10 counterexample: in a three-link chain whose second gateway call
exits 0 with unparsable output, the third link is still formatted with
`--dependency=afterany:100` — the id of the first link — refuting that
the next chain link carries no after-any dependency. -/
theorem c10_counterexample :
    okOf (submitChain gwParseGap envTriv gridChain3 [] "A" false false 3
        Option.none st0)
      = Option.some
        { job_ids := [("A", ["100", "101"])],
          dispatched := ["sbatch -J A run.sh",
            "sbatch --dependency=afterany:100 -J A run.sh",
            "sbatch --dependency=afterany:100 -J A run.sh"] }
    ∧ (gwParseGap 1).returncode = 0
    ∧ searchJobId (gwParseGap 1).stdout = Option.none := by
  refine ⟨by decide, by decide, by decide⟩

end Slurmer
